import Mathlib

/-!
Verification of the RequestAdapter Lambda handler (lambda_function.py).

The Python source is embedded shallowly:
  * Python/JSON values are the inductive type PyVal (floats are modelled as
    decimal values, which covers every float literal occurring in the source;
    dict keys are strings, as in every JSON-derived event).
  * json.dumps / json.loads / base64.b64decode / bytes.decode("utf-8",
    errors="replace") / str() / str.strip() are modelled as executable Lean
    functions on PyVal, String and List Nat (bytes).
  * The two external collaborators (the SageMaker runtime and the DynamoDB
    table) are modelled by an explicit World: the outcome of the
    invoke_endpoint call plus read, and the outcomes of the successive
    put_item calls, together with the values taken by the clock.
  * lambda_handler returns a HandlerTrace: the HTTP-shaped response or the
    uncaught exception, the list of put_item calls issued (in order), and
    the payload forwarded to invoke_endpoint (if the call was made).
-/

set_option maxHeartbeats 1000000
set_option maxRecDepth 8000

/-- Python values that can appear in a Lambda event or a JSON document.
float m d denotes the decimal value m / 10 ^ d (this covers the float
literals 0.0 and 0.9 occurring in the source). -/
inductive PyVal where
  | null
  | bool (b : Bool)
  | int (n : Int)
  | float (m : Int) (d : Nat)
  | str (s : String)
  | list (xs : List PyVal)
  | dict (kvs : List (String × PyVal))

/-- Whitespace characters removed by Python str.strip() (ASCII subset). -/
def pySpace (c : Char) : Bool :=
  c == ' ' || c == '\t' || c == '\n' || c == '\r' || c == '\x0b' || c == '\x0c'

/-- Python str.strip(): drop whitespace from both ends. -/
def py_strip (s : String) : String :=
  String.mk (((s.data.dropWhile pySpace).reverse.dropWhile pySpace).reverse)

/-- Python s[:n] slicing: the first n characters (code points). -/
def py_slice (s : String) (n : Nat) : String :=
  String.mk (s.data.take n)

/-- Lower-case hexadecimal digit for n < 16. -/
def hexDigit (n : Nat) : Char :=
  if n < 10 then Char.ofNat (48 + n) else Char.ofNat (87 + n)

/-- Escaping of one character inside a JSON string, as json.dumps with
ensure_ascii=False performs it. -/
def jsonEscapeChar (c : Char) : List Char :=
  if c = '"' then ['\\', '"']
  else if c = '\\' then ['\\', '\\']
  else if c = '\n' then ['\\', 'n']
  else if c = '\r' then ['\\', 'r']
  else if c = '\t' then ['\\', 't']
  else if c = '\x08' then ['\\', 'b']
  else if c = '\x0c' then ['\\', 'f']
  else if c.toNat < 32 then
    ['\\', 'u', '0', '0', hexDigit (c.toNat / 16), hexDigit (c.toNat % 16)]
  else [c]

/-- A JSON string literal: quoted and escaped. -/
def jsonQuote (s : String) : String :=
  String.mk ('"' :: (s.data.map jsonEscapeChar).flatten ++ ['"'])

/-- Decimal rendering of the modelled float m / 10 ^ d, matching Python repr
on the nonnegative decimal literals that occur in this program
(0.0 renders as a string with a trailing zero, 0.9 as its two digits). -/
def floatRepr (m : Int) (d : Nat) : String :=
  if d = 0 then toString m ++ ".0"
  else
    let p : Int := (10 : Int) ^ d
    let fracStr := toString ((m % p).toNat)
    toString (m / p) ++ "." ++ String.mk (List.replicate (d - fracStr.length) '0') ++ fracStr

mutual

/-- json.dumps with ensure_ascii=False and default separators. -/
def json_dumps : PyVal → String
  | .null => "null"
  | .bool true => "true"
  | .bool false => "false"
  | .int n => toString n
  | .float m d => floatRepr m d
  | .str s => jsonQuote s
  | .list xs => "[" ++ dumpsElems xs ++ "]"
  | .dict kvs => "\x7b" ++ dumpsMembers kvs ++ "\x7d"

/-- Array elements joined by the default item separator. -/
def dumpsElems : List PyVal → String
  | [] => ""
  | [x] => json_dumps x
  | x :: y :: xs => json_dumps x ++ ", " ++ dumpsElems (y :: xs)

/-- Object members joined by the default separators. -/
def dumpsMembers : List (String × PyVal) → String
  | [] => ""
  | [(k, v)] => jsonQuote k ++ ": " ++ json_dumps v
  | (k, v) :: m :: kvs => jsonQuote k ++ ": " ++ json_dumps v ++ ", " ++ dumpsMembers (m :: kvs)

end

/-- safe_json from lambda_function.py: json.dumps guarded by a str() fallback.
In this model every PyVal is JSON-serializable, so the fallback branch of the
source is unreachable and safe_json coincides with json.dumps. -/
def safe_json (value : PyVal) : String := json_dumps value

/-- JSON whitespace accepted between tokens by json.loads. -/
def isJsonWs (c : Char) : Bool :=
  c == ' ' || c == '\t' || c == '\n' || c == '\r'

/-- Skip JSON whitespace. -/
def skipWs (cs : List Char) : List Char := cs.dropWhile isJsonWs

/-- Value of a hexadecimal digit character, if it is one. -/
def hexVal (c : Char) : Option Nat :=
  if '0' ≤ c ∧ c ≤ '9' then some (c.toNat - 48)
  else if 'a' ≤ c ∧ c ≤ 'f' then some (c.toNat - 87)
  else if 'A' ≤ c ∧ c ≤ 'F' then some (c.toNat - 55)
  else Option.none

/-- Parse the remainder of a JSON string literal (the opening quote already
consumed): the decoded characters and the rest of the input. Strict mode of
json.loads: unescaped control characters are rejected. -/
def parseStrChars : Nat → List Char → Option (List Char × List Char)
  | 0, _ => Option.none
  | _ + 1, [] => Option.none
  | fuel + 1, c :: rest =>
    if c = '"' then some ([], rest)
    else if c = '\\' then
      match rest with
      | [] => Option.none
      | e :: rest2 =>
        if e = '"' then (parseStrChars fuel rest2).map (fun p => ('"' :: p.1, p.2))
        else if e = '\\' then (parseStrChars fuel rest2).map (fun p => ('\\' :: p.1, p.2))
        else if e = '/' then (parseStrChars fuel rest2).map (fun p => ('/' :: p.1, p.2))
        else if e = 'b' then (parseStrChars fuel rest2).map (fun p => ('\x08' :: p.1, p.2))
        else if e = 'f' then (parseStrChars fuel rest2).map (fun p => ('\x0c' :: p.1, p.2))
        else if e = 'n' then (parseStrChars fuel rest2).map (fun p => ('\n' :: p.1, p.2))
        else if e = 'r' then (parseStrChars fuel rest2).map (fun p => ('\r' :: p.1, p.2))
        else if e = 't' then (parseStrChars fuel rest2).map (fun p => ('\t' :: p.1, p.2))
        else if e = 'u' then
          match rest2 with
          | h1 :: h2 :: h3 :: h4 :: rest3 =>
            match hexVal h1, hexVal h2, hexVal h3, hexVal h4 with
            | some a, some b, some c2, some d2 =>
              (parseStrChars fuel rest3).map
                (fun p => (Char.ofNat (((a * 16 + b) * 16 + c2) * 16 + d2) :: p.1, p.2))
            | _, _, _, _ => Option.none
          | _ => Option.none
        else Option.none
    else if c.toNat < 32 then Option.none
    else (parseStrChars fuel rest).map (fun p => (c :: p.1, p.2))

/-- Digits to a natural number. -/
def digitsToNat (ds : List Char) : Nat :=
  ds.foldl (fun acc c => acc * 10 + (c.toNat - 48)) 0

/-- Parse a JSON number (integers and plain decimal fractions; exponents are
outside the modelled subset). Leading zeros are rejected as json.loads does. -/
def parseNumber (cs : List Char) : Option (PyVal × List Char) :=
  let negAndRest : Bool × List Char :=
    match cs with
    | '-' :: rest => (true, rest)
    | _ => (false, cs)
  let neg := negAndRest.1
  let intDs := negAndRest.2.takeWhile Char.isDigit
  let rest1 := negAndRest.2.dropWhile Char.isDigit
  if intDs.isEmpty then Option.none
  else if 1 < intDs.length ∧ intDs.headD '0' = '0' then Option.none
  else
    match rest1 with
    | '.' :: rest2 =>
      let fracDs := rest2.takeWhile Char.isDigit
      let rest3 := rest2.dropWhile Char.isDigit
      if fracDs.isEmpty then Option.none
      else
        let m : Int := Int.ofNat (digitsToNat (intDs ++ fracDs))
        some (.float (if neg then -m else m) fracDs.length, rest3)
    | _ =>
      let n : Int := Int.ofNat (digitsToNat intDs)
      some (.int (if neg then -n else n), rest1)

mutual

/-- Parse one JSON value; returns the value and the unconsumed input. -/
def parseVal : Nat → List Char → Option (PyVal × List Char)
  | 0, _ => Option.none
  | fuel + 1, cs =>
    match skipWs cs with
    | 'n' :: 'u' :: 'l' :: 'l' :: rest => some (.null, rest)
    | 't' :: 'r' :: 'u' :: 'e' :: rest => some (.bool true, rest)
    | 'f' :: 'a' :: 'l' :: 's' :: 'e' :: rest => some (.bool false, rest)
    | '"' :: rest =>
      (parseStrChars (rest.length + 1) rest).map (fun p => (.str (String.mk p.1), p.2))
    | '[' :: rest =>
      match skipWs rest with
      | ']' :: rest2 => some (.list [], rest2)
      | rest2 => (parseElems fuel rest2).map (fun p => (.list p.1, p.2))
    | '{' :: rest =>
      match skipWs rest with
      | '}' :: rest2 => some (.dict [], rest2)
      | rest2 => (parseMembers fuel rest2).map (fun p => (.dict p.1, p.2))
    | other => parseNumber other

/-- Parse the elements of a nonempty JSON array up to the closing bracket. -/
def parseElems : Nat → List Char → Option (List PyVal × List Char)
  | 0, _ => Option.none
  | fuel + 1, cs =>
    match parseVal fuel cs with
    | Option.none => Option.none
    | some (v, rest) =>
      match skipWs rest with
      | ',' :: rest2 => (parseElems fuel rest2).map (fun p => (v :: p.1, p.2))
      | ']' :: rest2 => some ([v], rest2)
      | _ => Option.none

/-- Parse the members of a nonempty JSON object up to the closing brace. -/
def parseMembers : Nat → List Char → Option (List (String × PyVal) × List Char)
  | 0, _ => Option.none
  | fuel + 1, cs =>
    match skipWs cs with
    | '"' :: rest =>
      match parseStrChars (rest.length + 1) rest with
      | Option.none => Option.none
      | some (kChars, rest1) =>
        match skipWs rest1 with
        | ':' :: rest2 =>
          match parseVal fuel rest2 with
          | Option.none => Option.none
          | some (v, rest3) =>
            match skipWs rest3 with
            | ',' :: rest4 =>
              (parseMembers fuel rest4).map (fun p => ((String.mk kChars, v) :: p.1, p.2))
            | '}' :: rest4 => some ([(String.mk kChars, v)], rest4)
            | _ => Option.none
        | _ => Option.none
    | _ => Option.none

end

/-- json.loads: parse a complete JSON document (the modelled subset),
rejecting trailing garbage; Option.none plays the role of JSONDecodeError. -/
def jsonLoads (s : String) : Option PyVal :=
  match parseVal (2 * s.data.length + 8) s.data with
  | some (v, rest) => if (skipWs rest).isEmpty then some v else Option.none
  | Option.none => Option.none

/-- try_parse_json from lambda_function.py: json.loads, wrapping an
unparseable string under the sentinel key. -/
def try_parse_json (s : String) : PyVal :=
  match jsonLoads s with
  | some v => v
  | Option.none => .dict [("_raw", .str s)]

/-- Index of a character in the standard base64 alphabet. -/
def b64Index (c : Char) : Option Nat :=
  if 'A' ≤ c ∧ c ≤ 'Z' then some (c.toNat - 65)
  else if 'a' ≤ c ∧ c ≤ 'z' then some (c.toNat - 71)
  else if '0' ≤ c ∧ c ≤ '9' then some (c.toNat + 4)
  else if c = '+' then some 62
  else if c = '/' then some 63
  else Option.none

/-- Reassemble 6-bit groups into bytes: full quadruples give three bytes, a
trailing pair one byte and a trailing triple two bytes. -/
def b64Quads : List Nat → List Nat
  | a :: b :: c :: d :: rest =>
    (a * 4 + b / 16) :: ((b % 16) * 16 + c / 4) :: ((c % 4) * 64 + d) :: b64Quads rest
  | [a, b] => [a * 4 + b / 16]
  | [a, b, c] => [a * 4 + b / 16, (b % 16) * 16 + c / 4]
  | _ => []

/-- base64.b64decode applied to a str (default validate=False): non-ASCII
input raises; characters outside the alphabet are discarded; the remaining
length including padding must be a multiple of 4; at most two trailing pad
characters are stripped before decoding. Option.none plays the exception. -/
def b64_decode (s : String) : Option (List Nat) :=
  if s.data.any (fun c => 127 < c.toNat) then Option.none
  else
    let kept := s.data.filter (fun c => (b64Index c).isSome || c == '=')
    if kept.length % 4 ≠ 0 then Option.none
    else
      let payload := kept.takeWhile (fun c => c ≠ '=')
      if 2 < kept.length - payload.length then Option.none
      else if (kept.drop payload.length).any (fun c => c ≠ '=') then Option.none
      else some (b64Quads (payload.filterMap b64Index))

/-- The Unicode replacement character. -/
def replacementChar : Char := Char.ofNat 0xFFFD

/-- Whether a byte is a UTF-8 continuation byte. -/
def isCont (b : Nat) : Bool := 128 ≤ b && b < 192

/-- Fuelled worker for UTF-8 decoding with replacement of invalid input
(each maximal invalid subpart becomes one replacement character, as Python
bytes.decode("utf-8", errors="replace") produces). -/
def utf8Aux : Nat → List Nat → List Char
  | 0, _ => []
  | _ + 1, [] => []
  | fuel + 1, b :: rest =>
    if b < 128 then Char.ofNat b :: utf8Aux fuel rest
    else if 194 ≤ b ∧ b ≤ 223 then
      match rest with
      | c1 :: rest2 =>
        if isCont c1 then Char.ofNat ((b - 192) * 64 + (c1 - 128)) :: utf8Aux fuel rest2
        else replacementChar :: utf8Aux fuel rest
      | [] => [replacementChar]
    else if 224 ≤ b ∧ b ≤ 239 then
      let lo1 : Nat := if b = 224 then 160 else 128
      let hi1 : Nat := if b = 237 then 159 else 191
      match rest with
      | c1 :: rest2 =>
        if lo1 ≤ c1 ∧ c1 ≤ hi1 then
          match rest2 with
          | c2 :: rest3 =>
            if isCont c2 then
              Char.ofNat ((b - 224) * 4096 + (c1 - 128) * 64 + (c2 - 128)) :: utf8Aux fuel rest3
            else replacementChar :: utf8Aux fuel rest2
          | [] => [replacementChar]
        else replacementChar :: utf8Aux fuel rest
      | [] => [replacementChar]
    else if 240 ≤ b ∧ b ≤ 244 then
      let lo1 : Nat := if b = 240 then 144 else 128
      let hi1 : Nat := if b = 244 then 143 else 191
      match rest with
      | c1 :: rest2 =>
        if lo1 ≤ c1 ∧ c1 ≤ hi1 then
          match rest2 with
          | c2 :: rest3 =>
            if isCont c2 then
              match rest3 with
              | c3 :: rest4 =>
                if isCont c3 then
                  Char.ofNat ((b - 240) * 262144 + (c1 - 128) * 4096
                      + (c2 - 128) * 64 + (c3 - 128)) :: utf8Aux fuel rest4
                else replacementChar :: utf8Aux fuel rest3
              | [] => [replacementChar]
            else replacementChar :: utf8Aux fuel rest2
          | [] => [replacementChar]
        else replacementChar :: utf8Aux fuel rest
      | [] => [replacementChar]
    else replacementChar :: utf8Aux fuel rest

/-- bytes.decode("utf-8", errors="replace"): never fails. -/
def utf8_decode_replace (bs : List Nat) : String :=
  String.mk (utf8Aux bs.length bs)

/-- Escaping of one character inside a Python string repr with quote q. -/
def pyReprChar (q : Char) (c : Char) : List Char :=
  if c = '\\' then ['\\', '\\']
  else if c = q then ['\\', q]
  else if c = '\n' then ['\\', 'n']
  else if c = '\r' then ['\\', 'r']
  else if c = '\t' then ['\\', 't']
  else if c.toNat < 32 ∨ c.toNat = 127 then
    ['\\', 'x', hexDigit (c.toNat / 16), hexDigit (c.toNat % 16)]
  else [c]

/-- repr of a Python string: single-quoted, unless the string contains a
single quote and no double quote. -/
def pyStrRepr (s : String) : String :=
  let q : Char :=
    if s.data.contains (Char.ofNat 39) ∧ ¬ s.data.contains '"' then '"' else Char.ofNat 39
  String.mk (q :: (s.data.map (pyReprChar q)).flatten ++ [q])

mutual

/-- repr of a Python value (the shapes PyVal models). -/
def py_repr : PyVal → String
  | .null => "None"
  | .bool true => "True"
  | .bool false => "False"
  | .int n => toString n
  | .float m d => floatRepr m d
  | .str s => pyStrRepr s
  | .list xs => "[" ++ pyReprElems xs ++ "]"
  | .dict kvs => "\x7b" ++ pyReprMembers kvs ++ "\x7d"

/-- List elements of a repr, comma-separated. -/
def pyReprElems : List PyVal → String
  | [] => ""
  | [x] => py_repr x
  | x :: y :: xs => py_repr x ++ ", " ++ pyReprElems (y :: xs)

/-- Dict members of a repr, comma-separated. -/
def pyReprMembers : List (String × PyVal) → String
  | [] => ""
  | [(k, v)] => pyStrRepr k ++ ": " ++ py_repr v
  | (k, v) :: m :: kvs => pyStrRepr k ++ ": " ++ py_repr v ++ ", " ++ pyReprMembers (m :: kvs)

end

/-- Python str(): the identity on strings, repr on the other modelled shapes. -/
def py_str (v : PyVal) : String :=
  match v with
  | .str s => s
  | other => py_repr other

/-- parse_body embeds _parse_body from lambda_function.py: normalize the
inbound envelope. A base64 decode failure and a JSON parse failure of the
body string both yield the empty mapping; a parse success yields whatever
value the body string denotes (not necessarily a mapping); a mapping body is
used directly; a missing body key returns the event itself. -/
def parse_body (event : PyVal) : PyVal :=
  match event with
  | .dict kvs =>
    match List.lookup "body" kvs with
    | some rawOrig =>
      let decoded : Option PyVal :=
        match List.lookup "isBase64Encoded" kvs with
        | some (.bool true) =>
          match rawOrig with
          | .str s =>
            match b64_decode s with
            | some bytes => some (.str (utf8_decode_replace bytes))
            | Option.none => Option.none
          | other => some other
        | _ => some rawOrig
      match decoded with
      | Option.none => .dict []
      | some (.str s) =>
        match jsonLoads s with
        | some v => v
        | Option.none => .dict []
      | some (.dict kvs2) => .dict kvs2
      | some _ => .dict []
    | Option.none => event
  | _ => .dict []

/-- The HTTP-shaped response returned by the handler. -/
structure HttpResponse where
  statusCode : Nat
  headers : List (String × String)
  body : String
deriving DecidableEq, Repr

/-- One item passed to the log-store put_item call, with the exact fields the
source builds (lambda_function.py lines 89-96 and 107-114). -/
structure LogItem where
  id : String
  request_id : String
  status : String
  prompt : String
  response : String
  timestamp : Nat
deriving DecidableEq, Repr

/-- Outcome of the remote invocation (invoke_endpoint plus the response body
read): either the raw response bytes, or an exception with its message. -/
inductive InvokeOutcome where
  | success (respBytes : List Nat)
  | raise (msg : String)
deriving DecidableEq, Repr

/-- The external world one invocation runs against: the invocation outcome,
the outcomes of the successive put_item calls (Option.none is success, some
msg an exception; an exhausted list means success), and the clock readings
used for the item id and for the two possible timestamp fields. -/
structure World where
  invoke : InvokeOutcome
  putResults : List (Option String)
  tMs : Nat
  tLogOk : Nat
  tLogErr : Nat
deriving DecidableEq, Repr

/-- The invocation context; only aws_request_id is read by the source. -/
structure Ctx where
  aws_request_id : String
deriving DecidableEq, Repr

/-- How one invocation ends: with a returned HTTP-shaped response, or with
an exception propagating out of the handler uncaught. -/
inductive HandlerResult where
  | response (r : HttpResponse)
  | uncaught (msg : String)
deriving DecidableEq, Repr

/-- Everything observable about one invocation: how it ended, the put_item
calls issued in order, and the payload forwarded to invoke_endpoint when the
remote call was made. -/
structure HandlerTrace where
  result : HandlerResult
  puts : List LogItem
  invokePayload : Option PyVal

/-- Name of the Python type of a value, as it appears in error messages. -/
def pyTypeName : PyVal → String
  | .null => "NoneType"
  | .bool _ => "bool"
  | .int _ => "int"
  | .float _ _ => "float"
  | .str _ => "str"
  | .list _ => "list"
  | .dict _ => "dict"

/-- The AttributeError raised by body.get when parse_body returned a
non-mapping value. -/
def attrErrorMsg (v : PyVal) : String :=
  "AttributeError: " ++ pyStrRepr (pyTypeName v) ++ " object has no attribute "
    ++ pyStrRepr "get"

/-- The fixed response headers. -/
def json_headers : List (String × String) := [("Content-Type", "application/json")]

/-- Outcome of the n-th put_item call issued against this world. -/
def put_outcome (w : World) (n : Nat) : Option String :=
  w.putResults.getD n Option.none

/-- The body of the 400 validation-failure response (lines 55-62). -/
def validation_error_body (event : PyVal) : String :=
  json_dumps (.dict [("error", .str "Empty or missing 'inputs' received by Lambda"),
    ("raw_event_sample", .str (py_slice (py_str event) 500))])

/-- The trace of a validation failure: the 400 response, no put_item call,
no remote call. -/
def trace400 (event : PyVal) : HandlerTrace :=
  ⟨.response ⟨400, json_headers, validation_error_body event⟩, [], Option.none⟩

/-- The inference request payload (lines 64-73): the untrimmed text plus the
fixed decoding configuration. -/
def mk_payload (text : String) : PyVal :=
  .dict [("inputs", .str text),
         ("parameters", .dict [
            ("max_new_tokens", .int 128),
            ("temperature", .float 0 1),
            ("top_p", .float 9 1),
            ("do_sample", .bool false),
            ("return_full_text", .bool false)])]

/-- The except-branch of the handler (lines 105-121): build the error log
item, issue the put_item call at index putIdx, and either propagate that
write failure uncaught or return the 502 response. prev lists the put_item
calls already issued inside the try-block. -/
def except_phase (w : World) (text : String) (payload : PyVal) (item_id : String)
    (emsg : String) (putIdx : Nat) (prev : List LogItem) : HandlerTrace :=
  let log_item : LogItem := ⟨item_id, item_id, "error", py_slice text 4000,
    safe_json (.dict [("invoke_error", .str emsg)]), w.tLogErr⟩
  match put_outcome w putIdx with
  | some e2 => ⟨.uncaught e2, prev ++ [log_item], some payload⟩
  | Option.none =>
    ⟨.response ⟨502, json_headers, json_dumps (.dict [("error", .str emsg)])⟩,
      prev ++ [log_item], some payload⟩

/-- The try-block of the handler after validation passed (lines 64-103):
build the payload and the item id, invoke the endpoint, and on success
decode, parse, log and return 200; any exception in the block, including one
raised by the success-path put_item call, falls to the except-branch. -/
def invoke_phase (w : World) (c : Ctx) (text : String) : HandlerTrace :=
  let payload := mk_payload text
  let item_id := toString w.tMs ++ "#" ++ c.aws_request_id
  match w.invoke with
  | .raise e => except_phase w text payload item_id e 0 []
  | .success bs =>
    let raw_out := utf8_decode_replace bs
    let result := try_parse_json raw_out
    let log_item : LogItem := ⟨item_id, item_id, "ok", py_slice text 4000,
      safe_json result, w.tLogOk⟩
    match put_outcome w 0 with
    | some e => except_phase w text payload item_id e 1 [log_item]
    | Option.none =>
      ⟨.response ⟨200, json_headers, json_dumps (.dict [("result", result)])⟩,
        [log_item], some payload⟩

/-- lambda_handler from lambda_function.py: normalize the envelope, read the
inputs candidate (an AttributeError propagates when the normalized body is
not a mapping), validate it, and run the invocation phase. -/
def lambda_handler (w : World) (event : PyVal) (c : Ctx) : HandlerTrace :=
  match parse_body event with
  | .dict kvs =>
    match (List.lookup "inputs" kvs).getD (.str "") with
    | .str s => if py_strip s = "" then trace400 event else invoke_phase w c s
    | _ => trace400 event
  | other => ⟨.uncaught (attrErrorMsg other), [], Option.none⟩

/-- The source's validation test (line 54): true when the candidate is not a
string or strips to the empty string. -/
def fails_validation : PyVal → Bool
  | .str s => py_strip s == ""
  | _ => true

/-- Whether an envelope reaches Step 3 (the invocation phase): the
normalized body is a mapping and its inputs candidate passes validation. -/
def reaches_step3 (event : PyVal) : Bool :=
  match parse_body event with
  | .dict kvs => !(fails_validation ((List.lookup "inputs" kvs).getD (.str "")))
  | _ => false

theorem getD_none_of_forall_none : ∀ (l : List (Option String)),
    (∀ o ∈ l, o = Option.none) → ∀ n, l.getD n Option.none = Option.none := by
  intro l
  induction l with
  | nil => intro _ n; cases n <;> rfl
  | cons a t ih =>
    intro h n
    cases n with
    | zero => exact h a (List.mem_cons_self a t)
    | succ m => exact ih (fun o ho => h o (List.mem_cons_of_mem a ho)) m

theorem handler_invoke_phase (w : World) (event : PyVal) (c : Ctx)
    (kvs : List (String × PyVal)) (t : String)
    (h1 : parse_body event = PyVal.dict kvs)
    (h2 : (List.lookup "inputs" kvs).getD (PyVal.str "") = PyVal.str t)
    (h3 : ¬ py_strip t = "") :
    lambda_handler w event c = invoke_phase w c t := by
  unfold lambda_handler
  rw [h1]
  dsimp only
  rw [h2]
  dsimp only
  rw [if_neg h3]

/-- Claim C4: for every invocation where the remote call succeeds and returns
bytes, the handler decodes them as UTF-8 with undecodable sequences replaced,
parses them as JSON (wrapping an unparseable string under the _raw key),
writes one log record with status ok and response equal to the JSON-serialized
parsed result, and returns HTTP 200 with body holding the parsed result under
the result key (stated for invocations whose log write succeeds, the write
being what the claim asserts happens). -/
theorem claim4_success_path (w : World) (event : PyVal) (c : Ctx)
    (kvs : List (String × PyVal)) (t : String) (bs : List Nat)
    (h1 : parse_body event = PyVal.dict kvs)
    (h2 : (List.lookup "inputs" kvs).getD (PyVal.str "") = PyVal.str t)
    (h3 : ¬ py_strip t = "")
    (h4 : w.invoke = InvokeOutcome.success bs)
    (h5 : put_outcome w 0 = Option.none) :
    lambda_handler w event c =
      ⟨HandlerResult.response ⟨200, json_headers,
          json_dumps (PyVal.dict [("result", try_parse_json (utf8_decode_replace bs))])⟩,
        [⟨toString w.tMs ++ "#" ++ c.aws_request_id, toString w.tMs ++ "#" ++ c.aws_request_id,
          "ok", py_slice t 4000, safe_json (try_parse_json (utf8_decode_replace bs)), w.tLogOk⟩],
        some (mk_payload t)⟩ := by
  rw [handler_invoke_phase w event c kvs t h1 h2 h3]
  unfold invoke_phase
  rw [h4]
  dsimp only
  rw [h5]

/-- Claim C4 witness: the spec's example 6, on the envelope with inputs hi
and the response bytes of a small JSON document. -/
theorem claim4_success_path_witness :
    lambda_handler ⟨InvokeOutcome.success ("\x7b\"generated_text\":\"x\"\x7d".data.map Char.toNat),
        [], 17, 5, 6⟩ (PyVal.dict [("inputs", PyVal.str "hi")]) ⟨"req-1"⟩ =
      ⟨HandlerResult.response ⟨200, json_headers,
          json_dumps (PyVal.dict [("result",
            try_parse_json (utf8_decode_replace
              ("\x7b\"generated_text\":\"x\"\x7d".data.map Char.toNat)))])⟩,
        [⟨toString (17 : Nat) ++ "#" ++ "req-1", toString (17 : Nat) ++ "#" ++ "req-1",
          "ok", py_slice "hi" 4000,
          safe_json (try_parse_json (utf8_decode_replace
            ("\x7b\"generated_text\":\"x\"\x7d".data.map Char.toNat))), 5⟩],
        some (mk_payload "hi")⟩ :=
  claim4_success_path _ _ _ [("inputs", PyVal.str "hi")] "hi" _ rfl rfl (by decide) rfl rfl

/-- Claim C5: for every invocation where an exception is raised while calling
the remote endpoint, reading its response or decoding it (the raise outcome of
the modelled world), the handler writes one log record with status error whose
response field is the JSON serialization of the invoke_error wrapper, and
returns HTTP 502 with the error description under the error key (stated for
invocations whose log write succeeds, the write being what the claim
asserts happens). -/
theorem claim5_error_path (w : World) (event : PyVal) (c : Ctx)
    (kvs : List (String × PyVal)) (t : String) (m : String)
    (h1 : parse_body event = PyVal.dict kvs)
    (h2 : (List.lookup "inputs" kvs).getD (PyVal.str "") = PyVal.str t)
    (h3 : ¬ py_strip t = "")
    (h4 : w.invoke = InvokeOutcome.raise m)
    (h5 : put_outcome w 0 = Option.none) :
    lambda_handler w event c =
      ⟨HandlerResult.response ⟨502, json_headers,
          json_dumps (PyVal.dict [("error", PyVal.str m)])⟩,
        [⟨toString w.tMs ++ "#" ++ c.aws_request_id, toString w.tMs ++ "#" ++ c.aws_request_id,
          "error", py_slice t 4000,
          safe_json (PyVal.dict [("invoke_error", PyVal.str m)]), w.tLogErr⟩],
        some (mk_payload t)⟩ := by
  rw [handler_invoke_phase w event c kvs t h1 h2 h3]
  unfold invoke_phase
  rw [h4]
  dsimp only
  unfold except_phase
  rw [h5]
  rfl

/-- Claim C5 witness: the spec's example 7, an invocation raising boom. -/
theorem claim5_error_path_witness :
    lambda_handler ⟨InvokeOutcome.raise "boom", [], 17, 5, 6⟩
        (PyVal.dict [("inputs", PyVal.str "hi")]) ⟨"req-1"⟩ =
      ⟨HandlerResult.response ⟨502, json_headers,
          json_dumps (PyVal.dict [("error", PyVal.str "boom")])⟩,
        [⟨toString (17 : Nat) ++ "#" ++ "req-1", toString (17 : Nat) ++ "#" ++ "req-1",
          "error", py_slice "hi" 4000,
          safe_json (PyVal.dict [("invoke_error", PyVal.str "boom")]), 6⟩],
        some (mk_payload "hi")⟩ :=
  claim5_error_path _ _ _ [("inputs", PyVal.str "hi")] "hi" "boom" rfl rfl (by decide) rfl rfl

/-- Claim C6: for every envelope whose normalized body is a mapping and whose
extracted inputs candidate is not a string, or strips to the empty string, the
handler returns HTTP 400 with the fixed error message and the first 500
characters of the string form of the original envelope, writes no log record,
and makes no remote call. -/
theorem claim6_validation_failure (w : World) (event : PyVal) (c : Ctx)
    (kvs : List (String × PyVal))
    (h1 : parse_body event = PyVal.dict kvs)
    (h2 : fails_validation ((List.lookup "inputs" kvs).getD (PyVal.str "")) = true) :
    lambda_handler w event c =
      ⟨HandlerResult.response ⟨400, json_headers,
          json_dumps (PyVal.dict
            [("error", PyVal.str "Empty or missing 'inputs' received by Lambda"),
             ("raw_event_sample", PyVal.str (py_slice (py_str event) 500))])⟩,
        [], Option.none⟩ := by
  unfold lambda_handler
  rw [h1]
  dsimp only
  cases hv : (List.lookup "inputs" kvs).getD (PyVal.str "") with
  | str s =>
    rw [hv] at h2
    unfold fails_validation at h2
    dsimp only at h2
    dsimp only
    rw [if_pos (eq_of_beq h2)]
    rfl
  | null => rfl
  | bool b => rfl
  | int n => rfl
  | float m d => rfl
  | list xs => rfl
  | dict kvs2 => rfl

/-- Claim C6 witness: an envelope whose inputs value is whitespace only. -/
theorem claim6_validation_failure_witness :
    lambda_handler ⟨InvokeOutcome.success [], [], 17, 5, 6⟩
        (PyVal.dict [("inputs", PyVal.str "   ")]) ⟨"req-1"⟩ =
      ⟨HandlerResult.response ⟨400, json_headers,
          json_dumps (PyVal.dict
            [("error", PyVal.str "Empty or missing 'inputs' received by Lambda"),
             ("raw_event_sample",
              PyVal.str (py_slice (py_str (PyVal.dict [("inputs", PyVal.str "   ")])) 500))])⟩,
        [], Option.none⟩ :=
  claim6_validation_failure _ _ _ [("inputs", PyVal.str "   ")] rfl (by decide)

/-- Claim C7: for every envelope whose extracted inputs candidate is a string
that is non-empty after trimming, the inference request forwarded to the
remote endpoint carries that string exactly, untrimmed, together with the
fixed decoding configuration (128 new tokens, temperature 0.0, top-p 0.9,
sampling disabled, full-text echo disabled), whatever the invocation and
log-write outcomes are. -/
theorem claim7_forwarded_request (w : World) (event : PyVal) (c : Ctx)
    (kvs : List (String × PyVal)) (t : String)
    (h1 : parse_body event = PyVal.dict kvs)
    (h2 : (List.lookup "inputs" kvs).getD (PyVal.str "") = PyVal.str t)
    (h3 : ¬ py_strip t = "") :
    (lambda_handler w event c).invokePayload =
      some (PyVal.dict [("inputs", PyVal.str t),
        ("parameters", PyVal.dict [
          ("max_new_tokens", PyVal.int 128),
          ("temperature", PyVal.float 0 1),
          ("top_p", PyVal.float 9 1),
          ("do_sample", PyVal.bool false),
          ("return_full_text", PyVal.bool false)])]) := by
  rw [handler_invoke_phase w event c kvs t h1 h2 h3]
  unfold invoke_phase
  cases w.invoke with
  | raise m =>
    dsimp only
    unfold except_phase
    cases put_outcome w 0 <;> rfl
  | success bs =>
    dsimp only
    cases put_outcome w 0 with
    | none => rfl
    | some e =>
      unfold except_phase
      cases put_outcome w 1 <;> rfl

/-- Claim C7 witness: an envelope with untrimmed inputs, padded by spaces. -/
theorem claim7_forwarded_request_witness :
    (lambda_handler ⟨InvokeOutcome.raise "boom", [], 17, 5, 6⟩
        (PyVal.dict [("inputs", PyVal.str " padded text ")]) ⟨"req-1"⟩).invokePayload =
      some (PyVal.dict [("inputs", PyVal.str " padded text "),
        ("parameters", PyVal.dict [
          ("max_new_tokens", PyVal.int 128),
          ("temperature", PyVal.float 0 1),
          ("top_p", PyVal.float 9 1),
          ("do_sample", PyVal.bool false),
          ("return_full_text", PyVal.bool false)])]) :=
  claim7_forwarded_request _ _ _ [("inputs", PyVal.str " padded text ")] " padded text "
    rfl rfl (by decide)

/-- Claim C10: the base64 decode of the body string happens only when the
envelope's isBase64Encoded value is exactly the boolean True; any other value
there (for example the string true or the integer 1) skips the decode and the
body string is parsed as JSON directly (the empty mapping on parse failure). -/
theorem claim10_base64_gate (kvs : List (String × PyVal)) (s : String) (v : PyVal)
    (h1 : List.lookup "body" kvs = some (PyVal.str s))
    (h2 : List.lookup "isBase64Encoded" kvs = some v)
    (h3 : v ≠ PyVal.bool true) :
    parse_body (PyVal.dict kvs) = (jsonLoads s).getD (PyVal.dict []) := by
  unfold parse_body
  dsimp only
  rw [h1]
  dsimp only
  rw [h2]
  cases v with
  | bool b =>
    cases b with
    | true => exact absurd rfl h3
    | false =>
      dsimp only
      cases hj : jsonLoads s <;> rfl
  | null => dsimp only; cases hj : jsonLoads s <;> rfl
  | int n => dsimp only; cases hj : jsonLoads s <;> rfl
  | float m d => dsimp only; cases hj : jsonLoads s <;> rfl
  | str s2 => dsimp only; cases hj : jsonLoads s <;> rfl
  | list xs => dsimp only; cases hj : jsonLoads s <;> rfl
  | dict kvs2 => dsimp only; cases hj : jsonLoads s <;> rfl

/-- Claim C10 witness: isBase64Encoded holding the truthy string true does
not trigger a decode; the body parses directly. -/
theorem claim10_base64_gate_witness :
    parse_body (PyVal.dict [("body", PyVal.str "\x7b\x7d"),
        ("isBase64Encoded", PyVal.str "true")]) =
      (jsonLoads "\x7b\x7d").getD (PyVal.dict []) :=
  claim10_base64_gate [("body", PyVal.str "\x7b\x7d"), ("isBase64Encoded", PyVal.str "true")]
    "\x7b\x7d" (PyVal.str "true") rfl rfl (fun h => PyVal.noConfusion h)

/-- Claim C8: round-trip of envelope normalization. The proxied envelope
whose body is the JSON encoding of a mapping with inputs hello normalizes to
that mapping, and the base64-proxied envelope whose body is the base64 of the
JSON encoding of a mapping with inputs hi, flagged isBase64Encoded, also
normalizes to the original mapping. -/
theorem claim8_roundtrip :
    parse_body (PyVal.dict [("body", PyVal.str "\x7b\"inputs\": \"hello\"\x7d")]) =
      PyVal.dict [("inputs", PyVal.str "hello")] ∧
    parse_body (PyVal.dict [("body", PyVal.str "eyJpbnB1dHMiOiAiaGkifQ=="),
        ("isBase64Encoded", PyVal.bool true)]) =
      PyVal.dict [("inputs", PyVal.str "hi")] := by
  constructor
  · rfl
  · rfl

/-- Claim C9: for every input text longer than 4000 characters that reaches
the invocation step, every log record the invocation writes (on the success
path and on the error path alike) carries as prompt exactly the first 4000
characters of the text — a string of length exactly 4000 — at least one such
record is written when the involved log writes succeed or the invocation
fails, and the payload forwarded to the inference call carries the full
untruncated text. -/
theorem claim9_prompt_truncation (w : World) (event : PyVal) (c : Ctx)
    (kvs : List (String × PyVal)) (t : String)
    (h1 : parse_body event = PyVal.dict kvs)
    (h2 : (List.lookup "inputs" kvs).getD (PyVal.str "") = PyVal.str t)
    (h3 : ¬ py_strip t = "")
    (h4 : 4000 < t.length) :
    (∀ item ∈ (lambda_handler w event c).puts, item.prompt = py_slice t 4000) ∧
    (lambda_handler w event c).puts ≠ [] ∧
    (py_slice t 4000).length = 4000 ∧
    (lambda_handler w event c).invokePayload =
      some (PyVal.dict [("inputs", PyVal.str t),
        ("parameters", PyVal.dict [
          ("max_new_tokens", PyVal.int 128),
          ("temperature", PyVal.float 0 1),
          ("top_p", PyVal.float 9 1),
          ("do_sample", PyVal.bool false),
          ("return_full_text", PyVal.bool false)])]) := by
  have hlen : (py_slice t 4000).length = 4000 := by
    unfold py_slice
    have hmk : (String.mk (t.data.take 4000)).length = (t.data.take 4000).length := rfl
    rw [hmk, List.length_take]
    have ht : t.length = t.data.length := rfl
    omega
  rw [handler_invoke_phase w event c kvs t h1 h2 h3]
  unfold invoke_phase
  refine ?_
  cases w.invoke with
  | raise m =>
    dsimp only
    unfold except_phase
    cases put_outcome w 0 with
    | none =>
      refine ⟨?_, by simp, hlen, rfl⟩
      intro item hitem
      dsimp only at hitem
      rw [List.nil_append, List.mem_singleton] at hitem
      rw [hitem]
    | some e =>
      refine ⟨?_, by simp, hlen, rfl⟩
      intro item hitem
      dsimp only at hitem
      rw [List.nil_append, List.mem_singleton] at hitem
      rw [hitem]
  | success bs =>
    dsimp only
    cases put_outcome w 0 with
    | none =>
      refine ⟨?_, by simp, hlen, rfl⟩
      intro item hitem
      dsimp only at hitem
      rw [List.mem_singleton] at hitem
      rw [hitem]
    | some e =>
      unfold except_phase
      cases put_outcome w 1 with
      | none =>
        refine ⟨?_, by simp, hlen, rfl⟩
        intro item hitem
        dsimp only at hitem
        rw [List.singleton_append, List.mem_cons, List.mem_singleton] at hitem
        rcases hitem with h | h <;> rw [h]
      | some e2 =>
        refine ⟨?_, by simp, hlen, rfl⟩
        intro item hitem
        dsimp only at hitem
        rw [List.singleton_append, List.mem_cons, List.mem_singleton] at hitem
        rcases hitem with h | h <;> rw [h]

/-- Claim C9 witness: a 5000-character input yields a 4000-character prompt
slice while the forwarded payload carries the whole string. -/
theorem claim9_prompt_truncation_witness :
    (py_slice (String.mk (List.replicate 5000 'a')) 4000).length = 4000 ∧
    (lambda_handler ⟨InvokeOutcome.raise "boom", [], 17, 5, 6⟩
        (PyVal.dict [("inputs", PyVal.str (String.mk (List.replicate 5000 'a')))])
        ⟨"req-1"⟩).invokePayload =
      some (PyVal.dict [("inputs", PyVal.str (String.mk (List.replicate 5000 'a'))),
        ("parameters", PyVal.dict [
          ("max_new_tokens", PyVal.int 128),
          ("temperature", PyVal.float 0 1),
          ("top_p", PyVal.float 9 1),
          ("do_sample", PyVal.bool false),
          ("return_full_text", PyVal.bool false)])]) := by
  have h := claim9_prompt_truncation ⟨InvokeOutcome.raise "boom", [], 17, 5, 6⟩
    (PyVal.dict [("inputs", PyVal.str (String.mk (List.replicate 5000 'a')))]) ⟨"req-1"⟩
    [("inputs", PyVal.str (String.mk (List.replicate 5000 'a')))]
    (String.mk (List.replicate 5000 'a')) rfl rfl
    (by decide)
    (by show 4000 < (List.replicate 5000 'a').length; rw [List.length_replicate]; omega)
  exact ⟨h.2.2.1, h.2.2.2⟩

theorem validation_body_structured (event : PyVal) :
    ∃ bodyKvs : List (String × PyVal),
      validation_error_body event = json_dumps (PyVal.dict bodyKvs) ∧
        ((List.lookup "error" bodyKvs).isSome ∨ (List.lookup "result" bodyKvs).isSome) :=
  ⟨[("error", PyVal.str "Empty or missing 'inputs' received by Lambda"),
    ("raw_event_sample", PyVal.str (py_slice (py_str event) 500))], rfl, Or.inl rfl⟩

/-- Claim C1 counterexample: the claim asserts handle never raises except on
a log-write failure, yet on the envelope whose body is the string 7 — valid
JSON that is not a mapping — the handler raises an attribute error although
every log write in this world succeeds (none is even attempted). -/
theorem claim1_counterexample :
    (lambda_handler ⟨InvokeOutcome.success [], [], 0, 0, 0⟩
        (PyVal.dict [("body", PyVal.str "7")]) ⟨"req-1"⟩).result =
      HandlerResult.uncaught "AttributeError: 'int' object has no attribute 'get'" ∧
    (lambda_handler ⟨InvokeOutcome.success [], [], 0, 0, 0⟩
        (PyVal.dict [("body", PyVal.str "7")]) ⟨"req-1"⟩).puts = [] := by
  exact ⟨rfl, rfl⟩

/-- Claim C1 as amended: for every envelope whose normalized body is a
mapping (the counterexample shows a body string holding valid non-mapping
JSON makes the handler raise an attribute error instead) and every world
whose log writes succeed, handle returns a structured HTTP-shaped response
whose JSON body contains an error or result field, and does not raise. -/
theorem claim1_structured_response (w : World) (event : PyVal) (c : Ctx)
    (kvs : List (String × PyVal))
    (hput : ∀ o ∈ w.putResults, o = Option.none)
    (hdict : parse_body event = PyVal.dict kvs) :
    ∃ resp : HttpResponse, (lambda_handler w event c).result = HandlerResult.response resp ∧
      ∃ bodyKvs : List (String × PyVal), resp.body = json_dumps (PyVal.dict bodyKvs) ∧
        ((List.lookup "error" bodyKvs).isSome ∨ (List.lookup "result" bodyKvs).isSome) := by
  have hp0 : put_outcome w 0 = Option.none := getD_none_of_forall_none _ hput 0
  unfold lambda_handler
  rw [hdict]
  dsimp only
  cases hv : (List.lookup "inputs" kvs).getD (PyVal.str "") with
  | str s =>
    dsimp only
    by_cases hs : py_strip s = ""
    · rw [if_pos hs]
      exact ⟨_, rfl, validation_body_structured event⟩
    · rw [if_neg hs]
      unfold invoke_phase
      cases hi : w.invoke with
      | raise m =>
        dsimp only
        unfold except_phase
        rw [hp0]
        exact ⟨_, rfl, [("error", PyVal.str m)], rfl, Or.inl rfl⟩
      | success bs =>
        dsimp only
        rw [hp0]
        exact ⟨_, rfl, [("result", try_parse_json (utf8_decode_replace bs))], rfl, Or.inr rfl⟩
  | null => exact ⟨_, rfl, validation_body_structured event⟩
  | bool b => exact ⟨_, rfl, validation_body_structured event⟩
  | int n => exact ⟨_, rfl, validation_body_structured event⟩
  | float m d => exact ⟨_, rfl, validation_body_structured event⟩
  | list xs => exact ⟨_, rfl, validation_body_structured event⟩
  | dict kvs2 => exact ⟨_, rfl, validation_body_structured event⟩

/-- Claim C1 witness: the amended claim at a direct-invoke envelope whose
normalized body is a mapping, in a world whose log writes all succeed. -/
theorem claim1_structured_response_witness :
    ∃ resp : HttpResponse,
      (lambda_handler ⟨InvokeOutcome.success [], [], 0, 0, 0⟩
          (PyVal.dict [("inputs", PyVal.str "hi")]) ⟨"req-1"⟩).result =
        HandlerResult.response resp ∧
      ∃ bodyKvs : List (String × PyVal), resp.body = json_dumps (PyVal.dict bodyKvs) ∧
        ((List.lookup "error" bodyKvs).isSome ∨ (List.lookup "result" bodyKvs).isSome) :=
  claim1_structured_response ⟨InvokeOutcome.success [], [], 0, 0, 0⟩
    (PyVal.dict [("inputs", PyVal.str "hi")]) ⟨"req-1"⟩
    [("inputs", PyVal.str "hi")] (by intro o ho; cases ho) rfl

theorem reaches_step3_invoke (event : PyVal) (h : reaches_step3 event = true) :
    ∃ t, ¬ py_strip t = "" ∧
      ∀ (w : World) (c : Ctx), lambda_handler w event c = invoke_phase w c t := by
  unfold reaches_step3 at h
  cases hpb : parse_body event with
  | dict kvs =>
    rw [hpb] at h
    dsimp only at h
    cases hv : (List.lookup "inputs" kvs).getD (PyVal.str "") with
    | str s =>
      rw [hv] at h
      unfold fails_validation at h
      dsimp only at h
      simp only [Bool.not_eq_true', beq_eq_false_iff_ne, ne_eq] at h
      exact ⟨s, h, fun w c => handler_invoke_phase w event c kvs s hpb hv h⟩
    | null => rw [hv] at h; simp [fails_validation] at h
    | bool b => rw [hv] at h; simp [fails_validation] at h
    | int n => rw [hv] at h; simp [fails_validation] at h
    | float m d => rw [hv] at h; simp [fails_validation] at h
    | list xs => rw [hv] at h; simp [fails_validation] at h
    | dict kvs2 => rw [hv] at h; simp [fails_validation] at h
  | null => rw [hpb] at h; dsimp only at h; exact absurd h (by simp)
  | bool b => rw [hpb] at h; dsimp only at h; exact absurd h (by simp)
  | int n => rw [hpb] at h; dsimp only at h; exact absurd h (by simp)
  | float m d => rw [hpb] at h; dsimp only at h; exact absurd h (by simp)
  | str s => rw [hpb] at h; dsimp only at h; exact absurd h (by simp)
  | list xs => rw [hpb] at h; dsimp only at h; exact absurd h (by simp)

/-- Claim C2 counterexample: the claim asserts a put_item failure is never
caught and never converted into an HTTP-shaped response, yet when the
success-path log write fails (and the ensuing error-path write succeeds) the
handler returns a 502 response carrying that write failure's description,
raising nothing. -/
theorem claim2_counterexample :
    (lambda_handler ⟨InvokeOutcome.success [104, 105], [some "db down"], 17, 5, 6⟩
        (PyVal.dict [("inputs", PyVal.str "hi")]) ⟨"req-1"⟩).result =
      HandlerResult.response ⟨502, json_headers,
        json_dumps (PyVal.dict [("error", PyVal.str "db down")])⟩ := rfl

/-- Claim C2 as amended: for every invocation that reaches the log-write
step, a failure of the error-path log write propagates out of the handler
uncaught; a failure of the success-path log write, however, is caught by the
handler's exception guard, which issues a second, error-path write — if that
second write fails, its failure propagates uncaught, and if it succeeds the
handler returns a 502 response carrying the first write failure's
description. -/
theorem claim2_log_write_propagation (event : PyVal)
    (h : reaches_step3 event = true) :
    (∀ (c : Ctx) (tms tok terr : Nat) (m d : String),
      (lambda_handler ⟨InvokeOutcome.raise m, [some d], tms, tok, terr⟩ event c).result =
        HandlerResult.uncaught d) ∧
    (∀ (c : Ctx) (tms tok terr : Nat) (bs : List Nat) (d1 d2 : String),
      (lambda_handler ⟨InvokeOutcome.success bs, [some d1, some d2], tms, tok, terr⟩
          event c).result = HandlerResult.uncaught d2) ∧
    (∀ (c : Ctx) (tms tok terr : Nat) (bs : List Nat) (d1 : String),
      (lambda_handler ⟨InvokeOutcome.success bs, [some d1], tms, tok, terr⟩ event c).result =
        HandlerResult.response ⟨502, json_headers,
          json_dumps (PyVal.dict [("error", PyVal.str d1)])⟩) := by
  obtain ⟨t, ht, hh⟩ := reaches_step3_invoke event h
  refine ⟨?_, ?_, ?_⟩
  · intro c tms tok terr m d
    rw [hh]
    rfl
  · intro c tms tok terr bs d1 d2
    rw [hh]
    rfl
  · intro c tms tok terr bs d1
    rw [hh]
    rfl

/-- Claim C2 witness: the amended claim's uncaught error-path propagation at
a concrete envelope and log-write failure. -/
theorem claim2_log_write_propagation_witness :
    (lambda_handler ⟨InvokeOutcome.raise "boom", [some "db down"], 17, 5, 6⟩
        (PyVal.dict [("inputs", PyVal.str "hi")]) ⟨"req-1"⟩).result =
      HandlerResult.uncaught "db down" :=
  (claim2_log_write_propagation (PyVal.dict [("inputs", PyVal.str "hi")]) rfl).1
    ⟨"req-1"⟩ 17 5 6 "boom" "db down"

/-- Claim C3 counterexample: an invocation that reaches Step 3 and whose
success-path log write fails issues two log writes, not exactly one. -/
theorem claim3_counterexample :
    reaches_step3 (PyVal.dict [("inputs", PyVal.str "hi")]) = true ∧
    (lambda_handler ⟨InvokeOutcome.success [104, 105], [some "db down"], 17, 5, 6⟩
        (PyVal.dict [("inputs", PyVal.str "hi")]) ⟨"req-1"⟩).puts.length = 2 :=
  ⟨rfl, rfl⟩

/-- Claim C3 as amended: an invocation that fails validation issues no log
write; an invocation that reaches Step 3 issues exactly one log write,
except when the remote call succeeds and the success-path write fails, in
which case a second, error-path write is issued, for two in all. -/
theorem claim3_log_write_count (w : World) (event : PyVal) (c : Ctx) :
    (reaches_step3 event = false → (lambda_handler w event c).puts = []) ∧
    (reaches_step3 event = true →
      (lambda_handler w event c).puts.length =
        match w.invoke, put_outcome w 0 with
        | InvokeOutcome.success _, some _ => 2
        | _, _ => 1) := by
  constructor
  · intro hf
    unfold reaches_step3 at hf
    unfold lambda_handler
    cases hpb : parse_body event with
    | dict kvs =>
      rw [hpb] at hf
      dsimp only at hf
      dsimp only
      cases hv : (List.lookup "inputs" kvs).getD (PyVal.str "") with
      | str s =>
        rw [hv] at hf
        unfold fails_validation at hf
        dsimp only at hf
        have hf2 : py_strip s = "" := by
          cases hbe : (py_strip s == "") with
          | true => exact eq_of_beq hbe
          | false => rw [hbe] at hf; simp at hf
        dsimp only
        rw [if_pos hf2]
        rfl
      | null => rfl
      | bool b => rfl
      | int n => rfl
      | float m d => rfl
      | list xs => rfl
      | dict kvs2 => rfl
    | null => rfl
    | bool b => rfl
    | int n => rfl
    | float m d => rfl
    | str s => rfl
    | list xs => rfl
  · intro ht2
    obtain ⟨t, hts, hh⟩ := reaches_step3_invoke event ht2
    rw [hh]
    unfold invoke_phase
    cases hi : w.invoke with
    | raise m =>
      dsimp only
      unfold except_phase
      cases hp : put_outcome w 0 <;> rfl
    | success bs =>
      dsimp only
      cases hp : put_outcome w 0 with
      | none => rfl
      | some e =>
        unfold except_phase
        cases hp1 : put_outcome w 1 <;> rfl

/-- Claim C3 witness: the amended count at two concrete invocations, one
failing validation (empty inputs) and one reaching Step 3 with a successful
write. -/
theorem claim3_log_write_count_witness :
    (lambda_handler ⟨InvokeOutcome.success [104, 105], [], 17, 5, 6⟩
        (PyVal.dict [("inputs", PyVal.str "")]) ⟨"req-1"⟩).puts = [] ∧
    (lambda_handler ⟨InvokeOutcome.success [104, 105], [], 17, 5, 6⟩
        (PyVal.dict [("inputs", PyVal.str "hello")]) ⟨"req-1"⟩).puts.length = 1 :=
  ⟨(claim3_log_write_count ⟨InvokeOutcome.success [104, 105], [], 17, 5, 6⟩
      (PyVal.dict [("inputs", PyVal.str "")]) ⟨"req-1"⟩).1 rfl,
   (claim3_log_write_count ⟨InvokeOutcome.success [104, 105], [], 17, 5, 6⟩
      (PyVal.dict [("inputs", PyVal.str "hello")]) ⟨"req-1"⟩).2 rfl⟩
